import Mathlib

/-!
Shallow embedding of the proxy dispatch core of the `tun` repository
(`src/proxy/mod.rs`): the `Address`/`Session` data model, textual address
parsing (`impl From<String> for Address`), textual rendering
(`impl Display for Address`), the socket factory functions
`create_bounded_udp_socket` / `create_bounded_tcp_socket`, and the
DNS-assisted resolution function `name_to_socket_addr`.

Rust standard-library calls that the repository merely invokes
(`str::parse::<SocketAddr>`, `SocketAddr` rendering, the OS socket API,
the tokio runtime hand-off) are treated as opaque parameters or as an
oracle of call outcomes; everything the repository itself computes is
embedded concretely.  A Rust `panic!` (here: `.unwrap()` on an `Err`)
is modelled as `Option.none` / an explicit `panic` outcome.
-/

/-- IP addresses: the repository only ever discriminates on the family
(`IpAddr::V4(..)` vs `IpAddr::V6(..)`); the numeric payload is carried
opaquely as a `Nat`. -/
inductive IpAddr where
  | v4 (bits : Nat)
  | v6 (bits : Nat)
deriving DecidableEq, Repr

/-- The IP family of an address, used by the socket factories to pick
`Domain::IPV4` vs `Domain::IPV6`. -/
inductive IpFamily where
  | v4
  | v6
deriving DecidableEq, Repr

/-- Family of an `IpAddr`, as matched by `match addr { IpAddr::V4(..) => .., IpAddr::V6(..) => .. }`. -/
def IpAddr.family : IpAddr → IpFamily
  | .v4 _ => .v4
  | .v6 _ => .v6

/-- A `std::net::SocketAddr`: an IP address plus a port. -/
structure SockAddr where
  ip : IpAddr
  port : Nat
deriving DecidableEq, Repr

/-- The repository `Address` enum: `Domain(String, u16) | Ip(SocketAddr)`. -/
inductive Address where
  | Domain (name : String) (port : Nat)
  | Ip (addr : SockAddr)
deriving DecidableEq, Repr

/-- `Address::port` from `src/proxy/mod.rs` lines 44-49. -/
def Address.port : Address → Nat
  | .Domain _ port => port
  | .Ip addr => addr.port

/-- Rust `s.split(':')` on the character list of the string: splits at every
colon, keeping empty segments, and yields one (possibly empty) segment even
for the empty input — exactly the semantics of `str::split`.  Structural
recursion so that concrete inputs evaluate by `rfl`/`decide`. -/
def splitColonAux : List Char → List Char → List (List Char)
  | [], acc => [acc.reverse]
  | c :: rest, acc =>
    if c = ':' then acc.reverse :: splitColonAux rest []
    else splitColonAux rest (c :: acc)

/-- The segment list `s.split(':').collect::<Vec<&str>>()`. -/
def colonSplit (s : String) : List String :=
  (splitColonAux s.data []).map String.mk

/-- Rust `u16::from_str_radix(seg, 10)`: optional leading `+`, then at least
one ASCII decimal digit, value at most `u16::MAX`; anything else is an
`Err` (modelled as `none`). -/
def parseU16Chars (cs : List Char) : Option Nat :=
  let digits := match cs with
    | '+' :: rest => rest
    | other => other
  if digits = [] then none
  else if digits.all (fun c => c.isDigit) then
    let n := digits.foldl (fun acc c => acc * 10 + (c.toNat - 48)) 0
    if n < 65536 then some n else none
  else none

/-- The repository `impl From<String> for Address`
(`src/proxy/mod.rs` lines 87-101).  The standard library function
`s.parse::<SocketAddr>()` is the opaque parameter `parseSA`.  On parse
failure the source does

  let parts: Vec<&str> = s.split(':').collect();
  let port = u16::from_str_radix(*parts.get(0).unwrap_or(&"0"), 10).unwrap();
  Self::Domain(s, port)

i.e. it keeps the WHOLE string as the domain name and parses the FIRST
colon-separated segment as the port; the `.unwrap()` panics when that
segment is not a valid `u16`, which we model as `none`. -/
def Address.fromString (parseSA : String → Option SockAddr) (s : String) :
    Option Address :=
  match parseSA s with
  | some res => some (Address.Ip res)
  | none =>
    let parts : List String := colonSplit s
    match parseU16Chars ((parts.get? 0).getD "0").data with
    | some port => some (Address.Domain s port)
    | none => none

/-- The repository `impl Display for Address`
(`src/proxy/mod.rs` lines 59-67): `Domain(name, port)` renders as
`format!("{}:{}", name, port)`; `Ip(addr)` renders via the standard
library rendering of `SocketAddr`, kept opaque as `displaySA`. -/
def Address.display (displaySA : SockAddr → String) : Address → String
  | .Domain name port => name ++ ":" ++ toString port
  | .Ip addr => displaySA addr

/-- The repository `Network` enum. -/
inductive Network where
  | TCP
  | UDP
deriving DecidableEq, Repr

/-- The repository `Session` struct (`src/proxy/mod.rs` lines 110-118). -/
structure Session where
  destination : Address
  local_peer : SockAddr
  network : Network
deriving DecidableEq, Repr

/-- `Session::port` from `src/proxy/mod.rs` lines 119-126. -/
def Session.port (s : Session) : Nat :=
  match s.destination with
  | .Domain _ p => p
  | .Ip addr => addr.port

/-- Socket types: `Type::DGRAM` (UDP) and `Type::STREAM` (TCP). -/
inductive SockType where
  | dgram
  | stream
deriving DecidableEq, Repr

/-- Outcomes of the external OS/runtime calls a socket factory performs,
given as an oracle: whether `Socket::new` succeeds, whether `bind`
succeeds, whether `set_nonblocking` succeeds, and whether the tokio
`from_std` hand-off succeeds. -/
structure SysOutcome where
  newOk : Bool
  bindOk : Bool
  nonblockOk : Bool
  fromStdOk : Bool
deriving DecidableEq, Repr

/-- Observable effects a socket factory performs, in call order.
`connect` is included so that its absence from every trace is a
statement about the code, and `logError` records a `log::error!` call. -/
inductive SockEffect where
  | newSocket (fam : IpFamily) (ty : SockType)
  | bind (a : SockAddr)
  | setNonblocking
  | logError
  | fromStd
  | connect (a : SockAddr)
deriving DecidableEq, Repr

/-- Whether an effect is a `connect` call. -/
def SockEffect.isConnect : SockEffect → Bool
  | .connect _ => true
  | _ => false

/-- The state of a returned socket: its family and type as chosen at
creation, the address it is bound to (if `bind` succeeded), whether
non-blocking mode took effect, and the peer it is connected to (the
factories never connect, so this stays `none`). -/
structure Sock where
  family : IpFamily
  ty : SockType
  bound : Option SockAddr
  nonblocking : Bool
  connected : Option SockAddr
deriving DecidableEq, Repr

/-- `create_bounded_udp_socket` from `src/proxy/mod.rs` lines 128-147.
Creates a DGRAM socket of the family of `addr` (propagating failure with
`?`), binds it to `(addr, 0)` logging-and-swallowing a failure, sets
non-blocking mode logging-and-swallowing a failure, then hands the
socket to tokio via `UdpSocket::from_std(..)?`, whose failure IS
propagated.  Returns the result (`none` = the function returned `Err`)
paired with the trace of effects. -/
def create_bounded_udp_socket (o : SysOutcome) (addr : IpAddr) :
    Option Sock × List SockEffect :=
  let fam := addr.family
  if o.newOk then
    let s0 : Sock := ⟨fam, .dgram, none, false, none⟩
    let target : SockAddr := ⟨addr, 0⟩
    let (s1, bindTrace) :=
      if o.bindOk then ({ s0 with bound := some target }, [SockEffect.bind target])
      else (s0, [SockEffect.bind target, SockEffect.logError])
    let (s2, nbTrace) :=
      if o.nonblockOk then ({ s1 with nonblocking := true }, [SockEffect.setNonblocking])
      else (s1, [SockEffect.setNonblocking, SockEffect.logError])
    let trace := SockEffect.newSocket fam .dgram :: (bindTrace ++ nbTrace ++ [SockEffect.fromStd])
    if o.fromStdOk then (some s2, trace) else (none, trace)
  else
    (none, [SockEffect.newSocket fam .dgram])

/-- `create_bounded_tcp_socket` from `src/proxy/mod.rs` lines 149-157.
Creates a STREAM socket of the family of `addr` (propagating failure
with `?`), then calls `socket.bind(&addr.into());` and
`socket.set_nonblocking(true);` DISCARDING both results without logging,
and finally wraps via the infallible `TcpSocket::from_std_stream`. -/
def create_bounded_tcp_socket (o : SysOutcome) (addr : SockAddr) :
    Option Sock × List SockEffect :=
  let fam := addr.ip.family
  if o.newOk then
    let s0 : Sock := ⟨fam, .stream, none, false, none⟩
    let s1 := if o.bindOk then { s0 with bound := some addr } else s0
    let s2 := if o.nonblockOk then { s1 with nonblocking := true } else s1
    (some s2,
     [SockEffect.newSocket fam .stream, SockEffect.bind addr,
      SockEffect.setNonblocking, SockEffect.fromStd])
  else
    (none, [SockEffect.newSocket fam .stream])

/-- The `anyhow!("dns not ip found")` error raised by
`name_to_socket_addr` when the DNS result set is empty — the error the
spec calls `NoAddressFound`. -/
def NoAddressFound : String := "dns not ip found"

/-- `name_to_socket_addr` from `src/proxy/mod.rs` lines 265-286.  The `lookup` method of the DNS
client is the opaque parameter: it receives the
`format!("{}:{}", name, port)` key and returns either a list of IPs or
an error (anyhow errors modelled as strings).  A `Domain` address takes
`ips.get(0)`; an empty result set yields the `NoAddressFound` error and
a `lookup` error is propagated unchanged.  An `Ip` address is returned
as-is without consulting `lookup`. -/
def name_to_socket_addr (lookup : String → Except String (List IpAddr)) :
    Address → Except String SockAddr
  | .Domain name port =>
    match lookup (name ++ ":" ++ toString port) with
    | .ok ips =>
      match ips.get? 0 with
      | some ip => .ok ⟨ip, port⟩
      | none => .error NoAddressFound
    | .error e => .error e
  | .Ip addr => .ok addr

/-- C1: the claim says that for a `"domain:port"` string that is not a
literal socket address but has a valid numeric u16 port segment,
`Address::from` yields `Domain(domain, port)`.  The code instead parses
the FIRST colon-separated segment (`parts.get(0)`) — the domain itself —
as a `u16` and calls `.unwrap()`, so on `"example.com:80"` (std parse
fails, port segment `80` is valid) the conversion panics instead of
returning `Domain("example.com", 80)`. -/
theorem address_from_string_panics_on_domain_port :
    Address.fromString (fun _ => none) "example.com:80" = none := by decide

/-- C2 (counterexample): on `"example.com"` — no valid port segment —
the conversion does not fail with an `InvalidAddress` error (the `From`
impl has no error channel at all): it panics, modelled as `none`. -/
theorem address_from_string_panic_not_invalid_address :
    Address.fromString (fun _ => none) "example.com" = none := by decide

/-- C2 (amended): when the string does not parse as a literal socket
address, the whole string is kept as the domain name and the port is
taken by parsing the FIRST colon-separated segment as a u16; when that
parse fails the conversion panics (`unwrap`), producing no
`InvalidAddress` error and no default port. -/
theorem address_from_string_first_segment_policy
    (parseSA : String → Option SockAddr) (s : String) (h : parseSA s = none) :
    (∀ p, parseU16Chars (((colonSplit s).get? 0).getD "0").data = some p →
      Address.fromString parseSA s = some (Address.Domain s p)) ∧
    (parseU16Chars (((colonSplit s).get? 0).getD "0").data = none →
      Address.fromString parseSA s = none) := by
  refine ⟨fun p hp => ?_, fun hp => ?_⟩ <;> simp only [Address.fromString, h, hp]

/-- C2 (witness): both branches of the amended statement at concrete
inputs. -/
theorem address_from_string_first_segment_policy_witness :
    Address.fromString (fun _ => none) "9:x" = some (Address.Domain "9:x" 9) ∧
    Address.fromString (fun _ => none) "x:9" = none :=
  ⟨(address_from_string_first_segment_policy (fun _ => none) "9:x" rfl).1 9 (by decide),
   (address_from_string_first_segment_policy (fun _ => none) "x:9" rfl).2 (by decide)⟩

/-- C3: the claim (and the comment in the source, which says a bad
domain:port only surfaces when connecting) asserts the conversion is
total on non-IP inputs.  It is not: on `"localhost"` the first segment
is not a valid u16, and `u16::from_str_radix(..).unwrap()` panics. -/
theorem address_from_string_panics_on_localhost :
    Address.fromString (fun _ => none) "localhost" = none := by decide

/-- C4 (counterexample): the textual round-trip fails on the `Domain`
variant.  `"123:80"` is a valid host:port string that std does not parse
as a socket address; the code stores the WHOLE string as the name and
the first segment as the port, so re-rendering gives `"123:80:123"`,
not `"123:80"`. -/
theorem address_roundtrip_fails_on_domain :
    (Address.fromString (fun _ => none) "123:80").map (Address.display (fun _ => ""))
      = some "123:80:123" ∧
    (Address.fromString (fun _ => none) "123:80").map (Address.display (fun _ => ""))
      ≠ some "123:80" := by decide

/-- C4 (amended): only the `Ip` variant round-trips: whenever the std
parser inverts the std rendering of a socket address, re-parsing the
rendering of `Ip(sa)` yields `Ip(sa)` again. -/
theorem address_ip_roundtrip
    (parseSA : String → Option SockAddr) (displaySA : SockAddr → String)
    (sa : SockAddr) (h : parseSA (displaySA sa) = some sa) :
    Address.fromString parseSA (Address.display displaySA (Address.Ip sa))
      = some (Address.Ip sa) := by
  simp [Address.fromString, Address.display, h]

/-- C4 (witness): the Ip round-trip at a concrete address with a
concrete std parse/display pair. -/
theorem address_ip_roundtrip_witness :
    Address.fromString (fun t => if t = "0.0.0.0:1" then some ⟨.v4 0, 1⟩ else none)
      (Address.display (fun _ => "0.0.0.0:1") (Address.Ip ⟨.v4 0, 1⟩))
      = some (Address.Ip ⟨.v4 0, 1⟩) :=
  address_ip_roundtrip _ _ _ (by decide)

/-- C5: on a `Domain` address, `name_to_socket_addr` fails with the
`NoAddressFound` error (`anyhow!("dns not ip found")`) when the DNS
lookup returns an empty list, and returns the socket address built from
the first returned IP and the original port when the list is
non-empty. -/
theorem name_to_socket_addr_domain_first_ip
    (lookup : String → Except String (List IpAddr)) (name : String) (port : Nat) :
    (lookup (name ++ ":" ++ toString port) = .ok [] →
      name_to_socket_addr lookup (Address.Domain name port) = .error NoAddressFound) ∧
    (∀ ip rest, lookup (name ++ ":" ++ toString port) = .ok (ip :: rest) →
      name_to_socket_addr lookup (Address.Domain name port) = .ok ⟨ip, port⟩) := by
  refine ⟨fun h => ?_, fun ip rest h => ?_⟩ <;> simp [name_to_socket_addr, h]

/-- C5 (witness): both branches at a concrete domain, port and DNS
client. -/
theorem name_to_socket_addr_domain_first_ip_witness :
    name_to_socket_addr (fun _ => .ok []) (Address.Domain "a" 1) = .error NoAddressFound ∧
    name_to_socket_addr (fun _ => .ok [.v4 7, .v6 9]) (Address.Domain "a" 1) = .ok ⟨.v4 7, 1⟩ :=
  ⟨(name_to_socket_addr_domain_first_ip (fun _ => .ok []) "a" 1).1 rfl,
   (name_to_socket_addr_domain_first_ip (fun _ => .ok [.v4 7, .v6 9]) "a" 1).2
     (.v4 7) [.v6 9] rfl⟩

/-- C6: on an `Ip` address, `name_to_socket_addr` returns the contained
socket address unchanged and cannot fail; its result does not depend on
the DNS client at all (`lookup` is never consulted), witnessed by
invariance under swapping the lookup function. -/
theorem name_to_socket_addr_ip_identity
    (lookupA lookupB : String → Except String (List IpAddr)) (addr : SockAddr) :
    name_to_socket_addr lookupA (Address.Ip addr) = .ok addr ∧
    name_to_socket_addr lookupA (Address.Ip addr)
      = name_to_socket_addr lookupB (Address.Ip addr) :=
  ⟨rfl, rfl⟩

/-- C7 (counterexample): the claim says both factories log-and-swallow
bind/non-blocking failures and fail only when raw socket creation
fails.  In fact the TCP factory swallows those failures WITHOUT logging
(both results are discarded: `socket.bind(..);` and
`socket.set_nonblocking(true);`), and the UDP factory can also fail
when `UdpSocket::from_std(..)?` fails even though `Socket::new`
succeeded. -/
theorem socket_factory_failure_policy_counterexample :
    (create_bounded_tcp_socket ⟨true, false, false, true⟩ ⟨.v4 0, 80⟩).1
      = some ⟨.v4, .stream, none, false, none⟩ ∧
    (create_bounded_tcp_socket ⟨true, false, false, true⟩ ⟨.v4 0, 80⟩).2.count .logError = 0 ∧
    (create_bounded_udp_socket ⟨true, true, true, false⟩ (.v4 0)).1 = none := by decide

/-- C7 (amended): bind and non-blocking failures never make either
factory return an error — the UDP factory logs one error per such
failure and continues, while the TCP factory silently discards both
results without logging; the TCP factory fails exactly when raw socket
creation fails, and the UDP factory fails exactly when raw socket
creation or the final `from_std` hand-off to the async runtime fails. -/
theorem socket_factory_failure_policy (o : SysOutcome) (ip : IpAddr) (a : SockAddr) :
    (create_bounded_udp_socket o ip).1.isNone = (!o.newOk || !o.fromStdOk) ∧
    (create_bounded_tcp_socket o a).1.isNone = !o.newOk ∧
    (create_bounded_udp_socket o ip).2.count .logError
      = (if o.newOk then (if o.bindOk then 0 else 1) + (if o.nonblockOk then 0 else 1) else 0) ∧
    (create_bounded_tcp_socket o a).2.count .logError = 0 := by
  rcases o with ⟨n, b, nb, f⟩
  cases n <;> cases b <;> cases nb <;> cases f <;> exact ⟨rfl, rfl, rfl, rfl⟩

/-- C8: when every system call succeeds, the UDP factory returns a DGRAM
socket of the family of its IP argument, bound to that IP with port 0,
in non-blocking mode, with the trace `new; bind; set_nonblocking;
from_std` (non-blocking is set before the runtime hand-off); the TCP
factory likewise returns a STREAM socket of the family of its socket
address, bound to it, non-blocking; and whatever the call outcomes, the
socket created first always has the family of the argument. -/
theorem socket_factory_success_shape (ip : IpAddr) (a : SockAddr) (o : SysOutcome) :
    create_bounded_udp_socket ⟨true, true, true, true⟩ ip
      = (some ⟨ip.family, .dgram, some ⟨ip, 0⟩, true, none⟩,
         [.newSocket ip.family .dgram, .bind ⟨ip, 0⟩, .setNonblocking, .fromStd]) ∧
    create_bounded_tcp_socket ⟨true, true, true, true⟩ a
      = (some ⟨a.ip.family, .stream, some a, true, none⟩,
         [.newSocket a.ip.family .stream, .bind a, .setNonblocking, .fromStd]) ∧
    (create_bounded_udp_socket o ip).2.head? = some (.newSocket ip.family .dgram) ∧
    (create_bounded_tcp_socket o a).2.head? = some (.newSocket a.ip.family .stream) := by
  rcases o with ⟨n, b, nb, f⟩
  cases n <;> cases b <;> cases nb <;> cases f <;> exact ⟨rfl, rfl, rfl, rfl⟩

/-- C9: neither factory ever performs a `connect` — no trace, under any
system-call outcomes, contains a connect effect — and any socket either
factory returns is unconnected. -/
theorem socket_factory_never_connects (o : SysOutcome) (ip : IpAddr) (a : SockAddr) :
    (create_bounded_udp_socket o ip).2.all (fun e => ! e.isConnect) = true ∧
    (create_bounded_tcp_socket o a).2.all (fun e => ! e.isConnect) = true ∧
    ((create_bounded_udp_socket o ip).1.elim true (fun s => s.connected == none)) = true ∧
    ((create_bounded_tcp_socket o a).1.elim true (fun s => s.connected == none)) = true := by
  rcases o with ⟨n, b, nb, f⟩
  cases n <;> cases b <;> cases nb <;> cases f <;> exact ⟨rfl, rfl, rfl, rfl⟩

/-- C10: `Session::port` agrees with `Address::port` on the destination
for every session, returning the stored port of a `Domain` destination
and the socket-address port of an `Ip` destination. -/
theorem session_port_agrees_with_address_port
    (d : Address) (lp : SockAddr) (n : Network) :
    Session.port ⟨d, lp, n⟩ = d.port ∧
    (∀ name p, Session.port ⟨Address.Domain name p, lp, n⟩ = p) ∧
    (∀ sa, Session.port ⟨Address.Ip sa, lp, n⟩ = sa.port) := by
  refine ⟨?_, fun _ _ => rfl, fun _ => rfl⟩
  cases d <;> rfl
